import Mathlib

/-!
Verification development for the "Einstein's Universe" chat client
(`src/services/geminiService.ts`, `src/App.tsx`, `src/constants.ts` and the
near-duplicate iterations under `src/unnamed/`).

The effectful TypeScript code is shallowly embedded: browser and backend
I/O (network fetches, the IndexedDB store, the generation backend) appear
as explicit oracle parameters and explicit state passing, and the functions
below are direct translations of the corresponding source functions.
-/

/-! ## Small string helpers (JS semantics on ASCII data) -/

/-- JS `String.prototype.toLowerCase` restricted to ASCII: lowercase every
character. -/
def lowerAscii (s : String) : String := String.mk (s.data.map Char.toLower)

/-- JS `String.prototype.trim` on ASCII data: drop whitespace from both ends. -/
def jsTrim (s : String) : String :=
  String.mk (((s.data.dropWhile Char.isWhitespace).reverse.dropWhile Char.isWhitespace).reverse)

/-- JS `String.prototype.startsWith`. -/
def jsStartsWith (s pat : String) : Bool := List.isPrefixOf pat.data s.data

/-- Does `pat` occur contiguously inside `l`?  (JS `String.prototype.includes`.) -/
def listHasSub : List Char → List Char → Bool
  | _, [] => true
  | [], _ :: _ => false
  | c :: rest, p :: ps => (List.isPrefixOf (p :: ps) (c :: rest)) || listHasSub rest (p :: ps)

/-- JS `a.includes(b)` on strings. -/
def strHasSub (s pat : String) : Bool := listHasSub s.data pat.data

/-! ## Content fingerprinter: `generateCacheKey` (geminiService.ts:53-58)

The source computes `crypto.subtle.digest('SHA-256', utf8(input))`, renders
the 32 digest bytes as two lowercase hex characters each (`b.toString(16)
.padStart(2, '0')`), joins them and keeps the first 32 characters.  SHA-256
is embedded below as a pure function on byte lists, words being `Nat`
values kept below `2 ^ 32` by explicit `% 2 ^ 32` reductions. -/

/-- 32-bit rotate right (operand assumed `< 2 ^ 32`). -/
def ror32 (n x : Nat) : Nat := ((x >>> n) ||| (x <<< (32 - n))) % (2 ^ 32)

/-- The 64 SHA-256 round constants. -/
def sha256K : List Nat :=
  [1116352408, 1899447441, 3049323471, 3921009573, 961987163, 1508970993,
   2453635748, 2870763221, 3624381080, 310598401, 607225278, 1426881987,
   1925078388, 2162078206, 2614888103, 3248222580, 3835390401, 4022224774,
   264347078, 604807628, 770255983, 1249150122, 1555081692, 1996064986,
   2554220882, 2821834349, 2952996808, 3210313671, 3336571891, 3584528711,
   113926993, 338241895, 666307205, 773529912, 1294757372, 1396182291,
   1695183700, 1986661051, 2177026350, 2456956037, 2730485921, 2820302411,
   3259730800, 3345764771, 3516065817, 3600352804, 4094571909, 275423344,
   430227734, 506948616, 659060556, 883997877, 958139571, 1322822218,
   1537002063, 1747873779, 1955562222, 2024104815, 2227730452, 2361852424,
   2428436474, 2756734187, 3204031479, 3329325298]

/-- SHA-256 working state: eight 32-bit words. -/
structure Sha256State where
  a : Nat
  b : Nat
  c : Nat
  d : Nat
  e : Nat
  f : Nat
  g : Nat
  h : Nat
  deriving Repr, DecidableEq

/-- SHA-256 initial hash value. -/
def sha256Init : Sha256State :=
  ⟨1779033703, 3144134277, 1013904242, 2773480762, 1359893119, 2600822924, 528734635, 1541459225⟩

/-- SHA-256 message padding: append `0x80`, zero bytes up to 56 mod 64, then
the bit length as 8 big-endian bytes. -/
def sha256Pad (msg : List Nat) : List Nat :=
  let len := msg.length
  let bitLen := 8 * len
  let zeros := (119 - len % 64) % 64
  msg ++ [0x80] ++ List.replicate zeros 0 ++
    [bitLen / 2 ^ 56 % 256, bitLen / 2 ^ 48 % 256, bitLen / 2 ^ 40 % 256, bitLen / 2 ^ 32 % 256,
     bitLen / 2 ^ 24 % 256, bitLen / 2 ^ 16 % 256, bitLen / 2 ^ 8 % 256, bitLen % 256]

/-- Split a byte list into 64-byte chunks. -/
def chunks64 (l : List Nat) : List (List Nat) :=
  if h : l = [] then []
  else l.take 64 :: chunks64 (l.drop 64)
termination_by l.length
decreasing_by
  simp only [List.length_drop]
  exact Nat.sub_lt (List.length_pos.mpr h) (by norm_num)

/-- Big-endian 32-bit words of one 64-byte chunk. -/
def chunkWords (chunk : List Nat) : Array Nat :=
  (List.range 16).foldl
    (fun ws i =>
      ws.push (chunk.getD (4 * i) 0 * 2 ^ 24 + chunk.getD (4 * i + 1) 0 * 2 ^ 16 +
               chunk.getD (4 * i + 2) 0 * 2 ^ 8 + chunk.getD (4 * i + 3) 0)) #[]

/-- Extend 16 message words to the 64-entry SHA-256 message schedule. -/
def sha256Schedule (w16 : Array Nat) : Array Nat :=
  (List.range 48).foldl
    (fun w i =>
      let j := i + 16
      let w15 := w.getD (j - 15) 0
      let w2 := w.getD (j - 2) 0
      let s0 := (ror32 7 w15) ^^^ (ror32 18 w15) ^^^ (w15 >>> 3)
      let s1 := (ror32 17 w2) ^^^ (ror32 19 w2) ^^^ (w2 >>> 10)
      w.push ((w.getD (j - 16) 0 + s0 + w.getD (j - 7) 0 + s1) % 2 ^ 32))
    w16

/-- One SHA-256 compression round. -/
def sha256Round (kw : Nat × Nat) (st : Sha256State) : Sha256State :=
  let s1 := (ror32 6 st.e) ^^^ (ror32 11 st.e) ^^^ (ror32 25 st.e)
  let ch := (st.e &&& st.f) ^^^ ((st.e ^^^ (2 ^ 32 - 1)) &&& st.g)
  let temp1 := (st.h + s1 + ch + kw.1 + kw.2) % 2 ^ 32
  let s0 := (ror32 2 st.a) ^^^ (ror32 13 st.a) ^^^ (ror32 22 st.a)
  let maj := (st.a &&& st.b) ^^^ (st.a &&& st.c) ^^^ (st.b &&& st.c)
  let temp2 := (s0 + maj) % 2 ^ 32
  ⟨(temp1 + temp2) % 2 ^ 32, st.a, st.b, st.c, (st.d + temp1) % 2 ^ 32, st.e, st.f, st.g⟩

/-- Process one 64-byte chunk into the running hash value. -/
def sha256Chunk (st : Sha256State) (chunk : List Nat) : Sha256State :=
  let w := sha256Schedule (chunkWords chunk)
  let c := (sha256K.zip w.toList).foldl (fun s kw => sha256Round kw s) st
  ⟨(st.a + c.a) % 2 ^ 32, (st.b + c.b) % 2 ^ 32, (st.c + c.c) % 2 ^ 32, (st.d + c.d) % 2 ^ 32,
   (st.e + c.e) % 2 ^ 32, (st.f + c.f) % 2 ^ 32, (st.g + c.g) % 2 ^ 32, (st.h + c.h) % 2 ^ 32⟩

/-- Big-endian bytes of one hash word. -/
def wordBytes (w : Nat) : List Nat :=
  [w / 2 ^ 24 % 256, w / 2 ^ 16 % 256, w / 2 ^ 8 % 256, w % 256]

/-- The 32 digest bytes of a final hash state. -/
def digestBytes (st : Sha256State) : List Nat :=
  wordBytes st.a ++ wordBytes st.b ++ wordBytes st.c ++ wordBytes st.d ++
  wordBytes st.e ++ wordBytes st.f ++ wordBytes st.g ++ wordBytes st.h

/-- SHA-256 of a byte list. -/
def sha256Bytes (msg : List Nat) : List Nat :=
  digestBytes ((chunks64 (sha256Pad msg)).foldl sha256Chunk sha256Init)

/-- Lowercase hexadecimal digit, as JS `n.toString(16)` produces for `n < 16`. -/
def hexChar (n : Nat) : Char :=
  if n < 10 then Char.ofNat (48 + n) else Char.ofNat (87 + n)

/-- JS `b.toString(16).padStart(2, '0')` for a byte `b < 256`. -/
def hexByte (b : Nat) : String := String.mk [hexChar (b / 16), hexChar (b % 16)]

/-- The sixteen lowercase hexadecimal digits. -/
def hexDigits : List Char := "0123456789abcdef".data

/-- UTF-8 bytes of a string (JS `TextEncoder.encode`). -/
def utf8Bytes (s : String) : List Nat := s.toUTF8.toList.map UInt8.toNat

/-- geminiService.ts:53-58 — SHA-256 the UTF-8 input, render as lowercase
hex (`map(b => b.toString(16).padStart(2, '0')).join('')`), keep the first
32 characters (`substring(0, 32)`). -/
def generateCacheKey (input : String) : String :=
  (((sha256Bytes (utf8Bytes input)).map hexByte).foldl (· ++ ·) "").take 32

/-! ## Image signature validation: `isValidImage` (geminiService.ts:60-69)

A `Blob` is embedded as its byte list; `blob.slice(0, 4)` plus indexing
into the resulting `Uint8Array` becomes `List.getD` on the 4-byte take. -/

/-- geminiService.ts:60-69. -/
def isValidImage (blob : List Nat) : Bool :=
  if blob.length < 10 then false    -- `blob.size < 10`
  else
    let header := blob.take 4
    if header.getD 0 0 = 0xFF && header.getD 1 0 = 0xD8 && header.getD 2 0 = 0xFF then true
    else if header.getD 0 0 = 0x89 && header.getD 1 0 = 0x50 &&
            header.getD 2 0 = 0x4E && header.getD 3 0 = 0x47 then true
    else false

/-! ## Static archive resolver, text branch (geminiService.ts:71-169)

`getFromStaticServer('text', eraKey)` builds a deterministic ordered list of
candidate URLs and fetches each in turn.  The network is embedded as the
ordered list of fetch outcomes for those URLs: `none` is a fetch that threw
(network error), `some r` a settled HTTP response. -/

/-- A settled HTTP response: `response.ok`, the `content-type` header
(already lowercased at geminiService.ts:117), and the body text. -/
structure FetchResponse where
  ok : Bool
  contentType : String
  body : String
  deriving Repr, DecidableEq

/-- geminiService.ts:115-137 — acceptance test for one text candidate:
`response.ok`, content type free of `text/html`, and a trimmed body that is
longer than 10 characters and does not start with a doctype (`<!`) or an
`<html` tag. -/
def validStaticText (r : FetchResponse) : Bool :=
  r.ok &&
  !(strHasSub (lowerAscii r.contentType) "text/html") &&
  (let trimmed := jsTrim r.body
   decide (trimmed.length > 10) && !(jsStartsWith trimmed "<!") &&
     !(jsStartsWith (lowerAscii trimmed) "<html"))

/-- geminiService.ts:105-168, text branch — walk the trial URLs in order,
skip thrown fetches and invalid candidates, and return the first validated
body; `none` is the SERVER MISS fall-through. -/
def getFromStaticServerText : List (Option FetchResponse) → Option String
  | [] => none
  | none :: rest => getFromStaticServerText rest
  | some r :: rest =>
      if validStaticText r then some r.body else getFromStaticServerText rest

/-! ## Persistent artifact cache (geminiService.ts:171-196)

The IndexedDB object store is embedded as a partial map from storage key to
payload; `store.put` is pointwise map update. -/

/-- The `CosmicCache` object store contents. -/
def CacheStore := String → Option String

/-- The versioned composite key `discovery_v12_<category>_<key>`
(geminiService.ts:172,189). -/
def storageKey (category key : String) : String :=
  "discovery_v12_" ++ category ++ "_" ++ key

/-- geminiService.ts:171-185 — read one entry; `request.result || null`
collapses a falsy (empty) payload to absent. -/
def getFromCache (store : CacheStore) (category key : String) : Option String :=
  match store (storageKey category key) with
  | some v => if v = "" then none else some v
  | none => none

/-- geminiService.ts:187-196 — write one entry, silently skipped when the
payload is falsy or shorter than 5 characters (`!data || data.length < 5`). -/
def saveToCache (store : CacheStore) (category key data : String) : CacheStore :=
  if data = "" || data.length < 5 then store
  else fun k => if k = storageKey category key then some data else store k

/-! ## Chapter configuration (constants.ts, types.ts)

`Era` enumeration values are their string contents; braces and ASCII
apostrophes inside the prompt strings are written with `\x7b`, `\x7d` and
`\x27` escapes. -/

/-- constants.ts / types.ts `Chapter`. -/
structure Chapter where
  id : String
  title : String
  description : String
  prompt : String
  deriving Repr, DecidableEq

/-- constants.ts:3-54 — the nine chapters, verbatim. -/
def CHAPTERS : List Chapter :=
  [{ id := "Introduction",
     title := "The Observation Deck",
     description := "Welcome to my laboratory, my dear friend. Let us gaze into the history of thought.",
     prompt := "You are Professor Albert Einstein. Address the user as \x27My dear friend\x27. Introduce the \x27Einstein\x27s Universe\x27 experience. Explain that we will journey through several pivotal eras of math. Keep it whimsical, humble, and academic. End by asking if they are ready to explore the Foundations of ancient tally marks and Egyptian geometry. Generate a [IMAGE: A friendly chalkboard sketch of Professor Einstein with his signature wild hair and a warm, inquisitive smile]." },
   { id := "Foundations",
     title := "The Foundations",
     description := "Ancient tally marks and Egyptian geometry.",
     prompt := "Discuss the Foundations of math: Ancient tally marks and Egyptian geometry. Use metaphors. Include a LaTeX equation like $A = \\frac\x7b1\x7d\x7b2\x7dbh$ for a triangle. Generate a [IMAGE: A chalkboard sketch of ancient Egyptian pyramids and measuring ropes] tag." },
   { id := "The Geometry of Forms",
     title := "The Geometry of Forms",
     description := "Euclidean axioms and the perfection of symmetry.",
     prompt := "Discuss the beauty of Geometry. Mention Euclid\x27s Elements and the five axioms. How do shapes define our reality? Include the Pythagorean theorem $a^2 + b^2 = c^2$. Generate a [IMAGE: A chalkboard sketch of perfect geometric shapes—circles, triangles, and squares—interlocking in a symmetrical pattern]." },
   { id := "The Origins of Zero",
     title := "The Origins of Zero",
     description := "Indian mathematics and the concept of the void.",
     prompt := "Explain the concept of Zero from Indian mathematics. Why is the \x27void\x27 so powerful? Use a metaphor about an empty pocket. Include the notation for zero in ancient Brahmi numerals if possible. Generate a [IMAGE: A chalkboard sketch of a vast cosmic void centered around a circular zero symbol]." },
   { id := "The Birth of Algebra",
     title := "The Birth of Algebra",
     description := "Al-Khwarizmi and the art of balancing equations.",
     prompt := "Discuss Al-Khwarizmi and \x27Al-Jabr\x27. Explain the beauty of balancing scales. Show an equation like $ax^2 + bx + c = 0$. Generate a [IMAGE: A chalkboard sketch of golden scales balancing letters and numbers]." },
   { id := "The Calculus Revolution",
     title := "The Calculus Revolution",
     description := "Newton, Leibniz, and the study of change.",
     prompt := "Discuss Calculus, the study of change. Mention the falling apple and the flux of the stars. Include $\\frac\x7bdy\x7d\x7bdx\x7d$ and $\\int$. Generate a [IMAGE: A chalkboard sketch of a planet moving along a tangent line of a curve]." },
   { id := "The Age of Analysis",
     title := "The Age of Analysis",
     description := "Euler’s beauty and non-Euclidean curves.",
     prompt := "Discuss Euler and non-Euclidean curves. Mention $e^\x7bi\\pi\x7d + 1 = 0$ as the most beautiful equation. Explain that space itself might be curved. Generate a [IMAGE: A chalkboard sketch of a complex mathematical manifold or a curved grid of space]." },
   { id := "The Quantum Leap",
     title := "The Quantum Leap",
     description := "Uncertainty, probability, and Planck’s constant.",
     prompt := "Discuss the Quantum realm. Mention that God does not play dice (or does He?). Mention $\\Delta x \\Delta p \\geq \\frac\x7b\\hbar\x7d\x7b2\x7d$. Generate a [IMAGE: A chalkboard sketch of a fuzzy atom with overlapping probability clouds]." },
   { id := "The Unified Theory",
     title := "The Unified Theory",
     description := "The search for a \x27Theory of Everything\x27.",
     prompt := "Discuss the search for the Unified Theory. How do we bridge the big and the small? $R_\x7b\\mu\\nu\x7d - \\frac\x7b1\x7d\x7b2\x7dRg_\x7b\\mu\\nu\x7d = \\frac\x7b8\\pi G\x7d\x7bc^4\x7dT_\x7b\\mu\\nu\x7d$. Generate a [IMAGE: A chalkboard sketch of a grand tapestry weaving together stars and subatomic particles]." }]

/-! ## Resolution orchestrator: `generateEinsteinResponse`
(geminiService.ts:198-263)

The static archive, the IndexedDB store and the chat backend are the three
effect sources; they are embedded as a world record.  `staticText k` is the
validated outcome of `getFromStaticServer('text', k)`, and `live` the
outcome of `ai.chats.create(...).sendMessage(...)` (an exception from
`getAI()` is also a `GenOutcome.err`).  The result records the value
returned or thrown, the store after the call, and which pipeline stages
ran, in order. -/

/-- Outcome of the live text-generation call: resolved text (possibly
empty, for a missing `response.text`) or a thrown error message. -/
inductive GenOutcome where
  | ok (text : String)
  | err (msg : String)
  deriving Repr, DecidableEq

/-- The effect sources visible to one `generateEinsteinResponse` call. -/
structure TextWorld where
  staticText : String → Option String
  store : CacheStore
  live : GenOutcome

/-- Pipeline stages of the resolution state machine. -/
inductive Stage where
  | staticLookup
  | cacheLookup
  | liveGen
  deriving Repr, DecidableEq

/-- Observable outcome of one `generateEinsteinResponse` call. -/
structure GenResult where
  result : Except String String
  store : CacheStore
  stages : List Stage

/-- JS truthiness of the optional era key (`undefined` and `""` are falsy). -/
def truthyKey : Option String → Bool
  | some k => decide (k ≠ "")
  | none => false

/-- geminiService.ts:201-205 — fall back to matching the prompt against the
chapter prompts when no (truthy) era key was passed. -/
def activeEraKey (prompt : String) (eraKey : Option String) : Option String :=
  if truthyKey eraKey then eraKey
  else
    match CHAPTERS.find? (fun c => c.prompt = prompt) with
    | some c => some c.id
    | none => eraKey

/-- geminiService.ts:240 — `response.text || "Ach, ze universe remains a mystery."`. -/
def FALLBACK_TEXT : String := "Ach, ze universe remains a mystery."

/-- geminiService.ts:198-263. -/
def generateEinsteinResponse (prompt historyJson : String) (eraKey : Option String)
    (w : TextWorld) : GenResult :=
  let aek := activeEraKey prompt eraKey
  let preStages := if truthyKey aek then [Stage.staticLookup] else []
  -- Priority 1: static archive (only for a truthy era key, geminiService.ts:208-211)
  match (if truthyKey aek then w.staticText (aek.getD "") else none) with
  | some staticResult =>
      { result := Except.ok staticResult, store := w.store, stages := [Stage.staticLookup] }
  | none =>
      -- Priority 2: IndexedDB cache keyed by the fingerprint of
      -- `prompt + JSON.stringify(history)` (geminiService.ts:214-226)
      let cacheKey := generateCacheKey (prompt ++ historyJson)
      match getFromCache w.store "text" cacheKey with
      | some cached =>
          { result := Except.ok cached, store := w.store,
            stages := preStages ++ [Stage.cacheLookup] }
      | none =>
          -- Priority 3: live generation (geminiService.ts:229-262)
          match w.live with
          | GenOutcome.ok t =>
              let text := if t = "" then FALLBACK_TEXT else t
              { result := Except.ok text,
                store := saveToCache w.store "text" cacheKey text,
                stages := preStages ++ [Stage.cacheLookup, Stage.liveGen] }
          | GenOutcome.err m =>
              -- the error is logged and rethrown (geminiService.ts:252-261)
              { result := Except.error m, store := w.store,
                stages := preStages ++ [Stage.cacheLookup, Stage.liveGen] }

/-! ## Speech generation with bounded retry: `generateEinsteinSpeech`
(src/unnamed/part_001:288-350)

The TTS backend is embedded as a function from the attempt number
(`retryCount` at call time) to the outcome of that attempt: resolved audio,
resolved-but-empty (no `inlineData`), or a thrown error.  The trace records
the returned value, the exact text sent on each attempt, and the delays
slept between attempts. -/

/-- Outcome of one TTS backend attempt. -/
inductive TtsOutcome where
  | ok (audio : String)
  | empty
  | err
  deriving Repr, DecidableEq

/-- part_001:335. -/
def fullInstruction : String :=
  "Say this with a warm, inquisitive, wise, and distinctly German-accented tone, phonetically pronouncing \x27the\x27 as \x27ze\x27 and \x27that\x27 as \x27zat\x27"

/-- part_001:336. -/
def simpleInstruction : String := "Say this as Professor Einstein"

/-- part_001:289. -/
def maxRetries : Nat := 3

/-- part_001:298,340 — the text sent on attempt number `retryCount`:
`` `${instructionPrefix}: ${text}` `` with the rich instruction while
`retryCount < 2` and the minimal one on the last attempt. -/
def speechAttemptText (text : String) (retryCount : Nat) : String :=
  (if retryCount < 2 then fullInstruction else simpleInstruction) ++ ": " ++ text

/-- Observable trace of one `generateEinsteinSpeech` call. -/
structure SpeechTrace where
  result : Option String
  attempts : List String
  delays : List Nat
  deriving Repr, DecidableEq

/-- part_001:338-348 — the retry loop `while (retryCount < maxRetries)`,
with the remaining iteration budget `maxRetries - retryCount` made explicit
as fuel.  A resolved attempt returns immediately (audio or `null`); a
thrown attempt bumps `retryCount`, gives up at `maxRetries`, and otherwise
sleeps `Math.pow(2, retryCount - 1) * 1000` milliseconds and retries. -/
def speechLoop (backend : Nat → TtsOutcome) (text : String) :
    Nat → Nat → SpeechTrace
  | 0, _ => ⟨none, [], []⟩
  | fuel + 1, retryCount =>
    let sent := speechAttemptText text retryCount
    match backend retryCount with
    | TtsOutcome.ok audio => ⟨some audio, [sent], []⟩
    | TtsOutcome.empty => ⟨none, [sent], []⟩
    | TtsOutcome.err =>
      if retryCount + 1 ≥ maxRetries then ⟨none, [sent], []⟩
      else
        let delay := 2 ^ (retryCount + 1 - 1) * 1000
        let t := speechLoop backend text fuel (retryCount + 1)
        ⟨t.result, sent :: t.attempts, delay :: t.delays⟩

/-- part_001:288-350. -/
def generateEinsteinSpeech (backend : Nat → TtsOutcome) (text : String) : SpeechTrace :=
  speechLoop backend text maxRetries 0

/-! ## Diagnostic log ring buffer: `addLog` (geminiService.ts:15-24)

Entries are abstract; the `window.dispatchEvent` notification per append is
counted. -/

/-- The module-level `performanceLogs` buffer plus the number of
`performance_log_updated` events dispatched so far. -/
structure LogState (α : Type) where
  buffer : List α
  events : Nat
  deriving Repr, DecidableEq

/-- geminiService.ts:15-24 — prepend the new entry, truncate to the most
recent 100 (`[newLog, ...performanceLogs].slice(0, 100)`), dispatch one
notification event. -/
def addLog (s : LogState α) (entry : α) : LogState α :=
  { buffer := (entry :: s.buffer).take 100, events := s.events + 1 }

/-! ## Log snapshots and aliasing: `getPerformanceLogs` /
`clearPerformanceLogs` (geminiService.ts:12-13)

JS arrays are mutable heap objects, so the heap is explicit: a list of
allocated arrays addressed by index, plus the address the module-level
`performanceLogs` variable refers to. -/

/-- Heap of allocated log arrays; `current` is the address held by the
`performanceLogs` variable. -/
structure LogHeap (α : Type) where
  heap : List (List α)
  current : Nat

/-- Read the array at an address. -/
def readArr (h : List (List α)) (a : Nat) : List α := h.getD a []

/-- Allocate a fresh array, returning its address. -/
def allocArr (h : List (List α)) (v : List α) : Nat × List (List α) :=
  (h.length, h ++ [v])

/-- geminiService.ts:12 — `() => [...performanceLogs]`: allocate a shallow
copy of the internal buffer and return (the address of) the copy. -/
def getPerformanceLogs (s : LogHeap α) : Nat × LogHeap α :=
  let (a, heap) := allocArr s.heap (readArr s.heap s.current)
  (a, { s with heap := heap })

/-- geminiService.ts:13 — `() => { performanceLogs = []; }`: point the
variable at a fresh empty array (no array is mutated in place). -/
def clearPerformanceLogs (s : LogHeap α) : LogHeap α :=
  let (a, heap) := allocArr s.heap []
  { heap := heap, current := a }

/-- A caller mutating, in place, an array it was handed (e.g. `push` or
`splice` on the value `getPerformanceLogs` returned). -/
def mutateArr (s : LogHeap α) (a : Nat) (v : List α) : LogHeap α :=
  { s with heap := s.heap.set a v }

/-! ## Narration sessions: `playSpeech` / `stopAudio` (App.tsx:93-100,149-204)

The narration loop is a cooperatively-scheduled task that yields at each
`await`; `SpeechPC` names the resumption points of App.tsx:167-198.  Global
state carries the `speechSessionId` counter, who (if anyone) currently has
`isAudioPlaying = true`, and append-only logs of backend speech calls and
started audio segments, each tagged with the issuing task's captured
session.  A resumption first re-reads the session counter exactly as the
source does; backend outcomes are chosen nondeterministically at the step. -/

/-- Resumption points of the `playSpeech` loop. -/
inductive SpeechPC where
  | loopHead
  | afterTts
  | afterDecode
  deriving Repr, DecidableEq

/-- One in-flight narration task: the session it captured at start
(App.tsx:156), where it will resume, and its remaining paragraphs. -/
structure SpeechTask where
  captured : Nat
  pc : SpeechPC
  paras : List String
  deriving Repr, DecidableEq

/-- Global narration state. -/
structure NarrState where
  counter : Nat
  audioOwner : Option Nat
  ttsCalls : List Nat
  segments : List Nat
  deriving Repr, DecidableEq

/-- App.tsx:93-100 — increment the session counter (cancelling every
in-flight step) and drop `isAudioPlaying`. -/
def stopAudio (σ : NarrState) : NarrState :=
  { σ with counter := σ.counter + 1, audioOwner := none }

/-- Resume one suspended narration task: the code between two `await`s of
App.tsx:167-199, starting with the session check each resumption performs.
Returns the new global state and the task's continuation (`none` when the
task finished or abandoned itself). -/
def resumeStep (σ : NarrState) (t : SpeechTask) (ttsOk : Bool) :
    NarrState × Option SpeechTask :=
  match t.pc with
  | SpeechPC.loopHead =>
    match t.paras with
    | [] =>
      -- loop exhausted; App.tsx:199 `if (currentSession === speechSessionId.current) stopAudio()`
      if t.captured = σ.counter then (stopAudio σ, none) else (σ, none)
    | _ :: _ =>
      if t.captured ≠ σ.counter then
        -- App.tsx:168 — stale: break; the guarded stopAudio at :199 is skipped
        (σ, none)
      else
        -- App.tsx:169-170 — issue the backend speech call and suspend
        ({ σ with ttsCalls := σ.ttsCalls ++ [t.captured] },
         some { t with pc := SpeechPC.afterTts })
  | SpeechPC.afterTts =>
    if t.captured ≠ σ.counter then (σ, none)     -- App.tsx:171 — stale: break, no stopAudio
    else if !ttsOk then (stopAudio σ, none)      -- App.tsx:171,199 — no audio: break, then stopAudio
    else (σ, some { t with pc := SpeechPC.afterDecode })  -- App.tsx:173 — decode, suspend
  | SpeechPC.afterDecode =>
    if t.captured ≠ σ.counter then (σ, none)     -- App.tsx:174 — stale: break, no stopAudio
    else
      -- App.tsx:177-189 — isAudioPlaying := true, start a new audio segment,
      -- wait for playback; the loop check of the next iteration runs on resume
      ({ σ with audioOwner := some t.captured, segments := σ.segments ++ [t.captured] },
       some { t with pc := SpeechPC.loopHead, paras := t.paras.tail })

/-- Global narration transitions: an explicit stop (App.tsx:93), a new
`playSpeech` entry (App.tsx:155, which performs `stopAudio()` and captures
the incremented counter), or the resumption of any in-flight task with any
backend outcome. -/
inductive NarrStep : NarrState → NarrState → Prop where
  | stop (σ : NarrState) : NarrStep σ (stopAudio σ)
  | start (σ : NarrState) : NarrStep σ (stopAudio σ)
  | resume (σ : NarrState) (t : SpeechTask) (ttsOk : Bool) :
      NarrStep σ (resumeStep σ t ttsOk).1

/-- Initial narration state (App.tsx:66 `speechSessionId = useRef(0)`). -/
def narrInit : NarrState := ⟨0, none, [], []⟩

/-- States reachable from the initial narration state. -/
inductive NarrReach : NarrState → Prop where
  | init : NarrReach narrInit
  | step {σ σ' : NarrState} : NarrReach σ → NarrStep σ σ' → NarrReach σ'

/-! ## Helper lemmas -/

/-- `getD` into a `take` agrees with `getD` into the list below the cut. -/
theorem getD_take_of_lt {α : Type} (l : List α) (n i : Nat) (d : α) (h : i < n) :
    (l.take n).getD i d = l.getD i d := by
  simp [List.getD_eq_getElem?_getD, List.getElem?_take, h]

/-! ## C7 — image signature validation -/

/-- C7: `isValidImage` accepts a blob exactly when it has at least 10 bytes
and its leading bytes carry the JPEG (`FF D8 FF`) or PNG (`89 50 4E 47`)
signature; consequently every 3-byte blob and every blob whose first 4
bytes are `00 00 00 00` is rejected. -/
theorem c7_isValidImage_signature :
    (∀ blob : List Nat,
      isValidImage blob = true ↔
        (10 ≤ blob.length ∧
          ((blob.getD 0 0 = 0xFF ∧ blob.getD 1 0 = 0xD8 ∧ blob.getD 2 0 = 0xFF) ∨
           (blob.getD 0 0 = 0x89 ∧ blob.getD 1 0 = 0x50 ∧
            blob.getD 2 0 = 0x4E ∧ blob.getD 3 0 = 0x47)))) ∧
    (∀ blob : List Nat, blob.length = 3 → isValidImage blob = false) ∧
    (∀ blob : List Nat, blob.take 4 = [0, 0, 0, 0] → isValidImage blob = false) := by
  have main : ∀ blob : List Nat,
      isValidImage blob = true ↔
        (10 ≤ blob.length ∧
          ((blob.getD 0 0 = 0xFF ∧ blob.getD 1 0 = 0xD8 ∧ blob.getD 2 0 = 0xFF) ∨
           (blob.getD 0 0 = 0x89 ∧ blob.getD 1 0 = 0x50 ∧
            blob.getD 2 0 = 0x4E ∧ blob.getD 3 0 = 0x47))) := by
    intro blob
    simp only [isValidImage]
    rw [getD_take_of_lt _ _ _ _ (by norm_num : (0:Nat) < 4),
        getD_take_of_lt _ _ _ _ (by norm_num : (1:Nat) < 4),
        getD_take_of_lt _ _ _ _ (by norm_num : (2:Nat) < 4),
        getD_take_of_lt _ _ _ _ (by norm_num : (3:Nat) < 4)]
    split_ifs with hlen hj hp
    · constructor
      · intro h
        simp at h
      · rintro ⟨h10, -⟩
        exact absurd h10 (by omega)
    · simp only [Bool.and_eq_true, decide_eq_true_eq] at hj
      simp only [true_iff]
      exact ⟨by omega, Or.inl ⟨hj.1.1, hj.1.2, hj.2⟩⟩
    · simp only [Bool.and_eq_true, decide_eq_true_eq] at hp
      simp only [true_iff]
      exact ⟨by omega, Or.inr ⟨hp.1.1.1, hp.1.1.2, hp.1.2, hp.2⟩⟩
    · simp only [Bool.and_eq_true, decide_eq_true_eq] at hj hp
      constructor
      · intro h
        simp at h
      · rintro ⟨-, hsig | hsig⟩
        · exact absurd ⟨⟨hsig.1, hsig.2.1⟩, hsig.2.2⟩ hj
        · exact absurd ⟨⟨⟨hsig.1, hsig.2.1⟩, hsig.2.2.1⟩, hsig.2.2.2⟩ hp
  refine ⟨main, ?_, ?_⟩
  · intro blob h3
    have := main blob
    rcases h : isValidImage blob
    · rfl
    · exact absurd ((this.mp h).1) (by omega)
  · intro blob h4
    have hlen : 4 ≤ blob.length := by
      have := congrArg List.length h4
      simp [List.length_take] at this
      omega
    have h0 : blob.getD 0 0 = 0 := by
      have := congrArg (fun l => l.getD 0 0) h4
      simpa [getD_take_of_lt _ _ _ _ (by norm_num : (0:Nat) < 4)] using this
    rcases h : isValidImage blob
    · rfl
    · rcases ((main blob).mp h).2 with hj | hp
      · rw [h0] at hj; exact absurd hj.1 (by norm_num)
      · rw [h0] at hp; exact absurd hp.1 (by norm_num)

/-- C7 witness: a padded JPEG header is accepted; a 3-byte blob and an
all-zero header are rejected. -/
theorem c7_isValidImage_signature_witness :
    isValidImage [0xFF, 0xD8, 0xFF, 0xE0, 0, 0, 0, 0, 0, 0] = true ∧
    isValidImage [0xFF, 0xD8, 0xFF] = false ∧
    isValidImage [0, 0, 0, 0, 1, 2, 3, 4, 5, 6, 7, 8] = false :=
  ⟨(c7_isValidImage_signature.1 _).mpr ⟨by decide, Or.inl (by decide)⟩,
   c7_isValidImage_signature.2.1 _ (by decide),
   c7_isValidImage_signature.2.2 _ (by decide)⟩

/-! ## C3 — cache round trip -/

/-- A payload of length at least 5 written by `saveToCache` is read back by
`getFromCache`. -/
theorem saveToCache_readBack (store : CacheStore) (c k v : String) (hv : 5 ≤ v.length) :
    getFromCache (saveToCache store c k v) c k = some v := by
  have hne : v ≠ "" := by
    intro h
    rw [h] at hv
    simp [String.length] at hv
  have hcond : (v = "" || decide (v.length < 5)) = false := by
    simp [hne]
    omega
  unfold saveToCache
  rw [hcond]
  simp only [Bool.false_eq_true, if_false]
  unfold getFromCache
  simp [hne]

/-- A payload shorter than 5 characters makes `saveToCache` a no-op. -/
theorem saveToCache_noop (store : CacheStore) (c k v : String) (hv : v.length < 5) :
    saveToCache store c k v = store := by
  have hcond : (v = "" || decide (v.length < 5)) = true := by
    simp
    omega
  unfold saveToCache
  rw [hcond]
  simp

/-- C3: `saveToCache` followed by `getFromCache` on the same category/key
returns the payload whenever it has length at least 5; a payload shorter
than 5 characters (the empty string included) makes `saveToCache` a no-op,
so a previously absent key stays absent. -/
theorem c3_saveToCache_roundTrip :
    (∀ (store : CacheStore) (c k v : String), 5 ≤ v.length →
        getFromCache (saveToCache store c k v) c k = some v) ∧
    (∀ (store : CacheStore) (c k v : String), v.length < 5 →
        saveToCache store c k v = store ∧
        (getFromCache store c k = none →
          getFromCache (saveToCache store c k v) c k = none)) :=
  ⟨saveToCache_readBack,
   fun store c k v hv =>
     ⟨saveToCache_noop store c k v hv,
      fun h => by rw [saveToCache_noop store c k v hv]; exact h⟩⟩

/-- C3 witness: a 5-character payload round-trips through an empty store; a
2-character payload is dropped and the key stays absent. -/
theorem c3_saveToCache_roundTrip_witness :
    getFromCache (saveToCache (fun _ => none) "text" "k1" "hello") "text" "k1" = some "hello" ∧
    saveToCache (fun _ => none) "text" "k1" "hi" = (fun _ => none : CacheStore) ∧
    getFromCache (saveToCache (fun _ => none) "text" "k1" "hi") "text" "k1" = none :=
  ⟨c3_saveToCache_roundTrip.1 _ _ _ _ (by decide),
   (c3_saveToCache_roundTrip.2 (fun _ => none) "text" "k1" "hi" (by decide)).1,
   (c3_saveToCache_roundTrip.2 (fun _ => none) "text" "k1" "hi" (by decide)).2 rfl⟩

/-! ## C8 — diagnostic log ring buffer -/

/-- Truncating the tail before appending does not change a truncated append. -/
theorem take_append_take {α : Type} (l m : List α) (n : Nat) :
    (l ++ m.take n).take n = (l ++ m).take n := by
  rw [List.take_append_eq_append_take, List.take_append_eq_append_take, List.take_take,
    inf_eq_left.mpr (Nat.sub_le n l.length)]

/-- Folding `addLog` prepends the new entries (newest first) and keeps the
100 most recent. -/
theorem addLog_foldl {α : Type} (es : List α) (s : LogState α)
    (h : s.buffer.length ≤ 100) :
    (es.foldl addLog s).buffer = (es.reverse ++ s.buffer).take 100 ∧
    (es.foldl addLog s).events = s.events + es.length := by
  induction es generalizing s with
  | nil =>
    simp [List.take_of_length_le h]
  | cons e es ih =>
    have hstep : (addLog s e).buffer.length ≤ 100 := by
      simp [addLog, List.length_take]
    have := ih (addLog s e) hstep
    rw [List.foldl_cons]
    refine ⟨?_, ?_⟩
    · rw [this.1]
      show (es.reverse ++ (e :: s.buffer).take 100).take 100 =
        ((e :: es).reverse ++ s.buffer).take 100
      rw [take_append_take]
      congr 1
      simp
    · rw [this.2]
      simp [addLog]
      omega

/-- C8: from any in-bounds state, a sequence of `addLog` appends leaves the
buffer equal to the new entries (newest first) in front of the old ones,
truncated to the 100 most recent, hence never longer than 100 entries, and
dispatches exactly one notification event per append. -/
theorem c8_log_ring_buffer {α : Type} (es : List α) (s : LogState α)
    (h : s.buffer.length ≤ 100) :
    (es.foldl addLog s).buffer = (es.reverse ++ s.buffer).take 100 ∧
    (es.foldl addLog s).buffer.length ≤ 100 ∧
    (es.foldl addLog s).events = s.events + es.length := by
  obtain ⟨h1, h2⟩ := addLog_foldl es s h
  refine ⟨h1, ?_, h2⟩
  rw [h1]
  simp [List.length_take]

/-- C8 witness: three appends into the empty buffer. -/
theorem c8_log_ring_buffer_witness :
    (([0, 1, 2] : List Nat).foldl addLog ⟨[], 0⟩).buffer =
      (([0, 1, 2] : List Nat).reverse ++ []).take 100 ∧
    (([0, 1, 2] : List Nat).foldl addLog ⟨[], 0⟩).buffer.length ≤ 100 ∧
    (([0, 1, 2] : List Nat).foldl addLog ⟨[], 0⟩).events = 0 + 3 :=
  c8_log_ring_buffer [0, 1, 2] ⟨[], 0⟩ (by decide)

/-! ## C2 — soft-404 rejection on static text lookups -/

/-- C2: a fetched text candidate whose declared content type mentions
`text/html`, or whose trimmed body starts with a doctype or html tag, or
whose trimmed body is at most 10 characters long, fails validation, and the
resolver falls through to the remaining candidates. -/
theorem c2_soft404_rejected :
    (∀ r : FetchResponse,
       (strHasSub (lowerAscii r.contentType) "text/html" = true ∨
        jsStartsWith (jsTrim r.body) "<!" = true ∨
        jsStartsWith (lowerAscii (jsTrim r.body)) "<html" = true ∨
        (jsTrim r.body).length ≤ 10) →
       validStaticText r = false) ∧
    (∀ (r : FetchResponse) (rest : List (Option FetchResponse)),
       validStaticText r = false →
       getFromStaticServerText (some r :: rest) = getFromStaticServerText rest) := by
  constructor
  · intro r h
    unfold validStaticText
    rcases h with h | h | h | h
    · simp [h]
    · simp [h]
    · simp [h]
    · have : ¬ (jsTrim r.body).length > 10 := by omega
      simp [this]
  · intro r rest h
    simp [getFromStaticServerText, h]

/-- C2 witness: an HTTP 200 `text/html` soft-404 page is rejected and the
lookup falls through to a miss. -/
theorem c2_soft404_rejected_witness :
    validStaticText ⟨true, "text/html; charset=utf-8", "<html><body>Not Found</body></html>"⟩ = false ∧
    getFromStaticServerText
      [some ⟨true, "text/html; charset=utf-8", "<html><body>Not Found</body></html>"⟩] = none := by
  have hv := c2_soft404_rejected.1
    ⟨true, "text/html; charset=utf-8", "<html><body>Not Found</body></html>"⟩
    (Or.inl (by decide))
  exact ⟨hv, by rw [c2_soft404_rejected.2 _ [] hv]; rfl⟩

/-! ## C6 — bounded speech retry policy (part_001 variant) -/

/-- C6: `generateEinsteinSpeech` makes at most 3 backend attempts; attempts
0 and 1 prepend the rich prosody/accent instruction and the final attempt
the minimal one; the sleeps between failed attempts are exactly
`1000 * 2 ^ i` milliseconds for the i-th retry (doubling); and when every
attempt throws, the call resolves to `none` instead of propagating. -/
theorem c6_speech_retry_policy (backend : Nat → TtsOutcome) (text : String) :
    (generateEinsteinSpeech backend text).attempts.length ≤ 3 ∧
    (∀ i, i < (generateEinsteinSpeech backend text).attempts.length →
      (generateEinsteinSpeech backend text).attempts.getD i "" =
        (if i < 2 then fullInstruction else simpleInstruction) ++ ": " ++ text) ∧
    (generateEinsteinSpeech backend text).delays =
      (List.range ((generateEinsteinSpeech backend text).attempts.length - 1)).map
        (fun i => 2 ^ i * 1000) ∧
    ((backend 0 = TtsOutcome.err ∧ backend 1 = TtsOutcome.err ∧ backend 2 = TtsOutcome.err) →
      (generateEinsteinSpeech backend text).result = none) := by
  cases h0 : backend 0 with
  | ok a0 =>
    have ht : generateEinsteinSpeech backend text =
        ⟨some a0, [speechAttemptText text 0], []⟩ := by
      simp [generateEinsteinSpeech, speechLoop, maxRetries, h0]
    rw [ht]
    refine ⟨by simp, ?_, by simp, ?_⟩
    · intro i hi
      simp at hi
      subst hi
      simp [speechAttemptText]
    · rintro ⟨he, -, -⟩
      cases he
  | empty =>
    have ht : generateEinsteinSpeech backend text =
        ⟨none, [speechAttemptText text 0], []⟩ := by
      simp [generateEinsteinSpeech, speechLoop, maxRetries, h0]
    rw [ht]
    refine ⟨by simp, ?_, by simp, fun _ => rfl⟩
    intro i hi
    simp at hi
    subst hi
    simp [speechAttemptText]
  | err =>
    cases h1 : backend 1 with
    | ok a1 =>
      have ht : generateEinsteinSpeech backend text =
          ⟨some a1, [speechAttemptText text 0, speechAttemptText text 1], [1000]⟩ := by
        simp [generateEinsteinSpeech, speechLoop, maxRetries, h0, h1]
      rw [ht]
      refine ⟨by simp, ?_, by simp [List.range_succ], ?_⟩
      · intro i hi
        simp at hi
        interval_cases i <;> simp [speechAttemptText]
      · rintro ⟨-, he, -⟩
        cases he
    | empty =>
      have ht : generateEinsteinSpeech backend text =
          ⟨none, [speechAttemptText text 0, speechAttemptText text 1], [1000]⟩ := by
        simp [generateEinsteinSpeech, speechLoop, maxRetries, h0, h1]
      rw [ht]
      refine ⟨by simp, ?_, by simp [List.range_succ], fun _ => rfl⟩
      intro i hi
      simp at hi
      interval_cases i <;> simp [speechAttemptText]
    | err =>
      cases h2 : backend 2 with
      | ok a2 =>
        have ht : generateEinsteinSpeech backend text =
            ⟨some a2,
             [speechAttemptText text 0, speechAttemptText text 1, speechAttemptText text 2],
             [1000, 2000]⟩ := by
          simp [generateEinsteinSpeech, speechLoop, maxRetries, h0, h1, h2]
        rw [ht]
        refine ⟨by simp, ?_, by simp [List.range_succ], ?_⟩
        · intro i hi
          simp at hi
          interval_cases i <;> simp [speechAttemptText]
        · rintro ⟨-, -, he⟩
          cases he
      | empty =>
        have ht : generateEinsteinSpeech backend text =
            ⟨none,
             [speechAttemptText text 0, speechAttemptText text 1, speechAttemptText text 2],
             [1000, 2000]⟩ := by
          simp [generateEinsteinSpeech, speechLoop, maxRetries, h0, h1, h2]
        rw [ht]
        refine ⟨by simp, ?_, by simp [List.range_succ], fun _ => rfl⟩
        intro i hi
        simp at hi
        interval_cases i <;> simp [speechAttemptText]
      | err =>
        have ht : generateEinsteinSpeech backend text =
            ⟨none,
             [speechAttemptText text 0, speechAttemptText text 1, speechAttemptText text 2],
             [1000, 2000]⟩ := by
          simp [generateEinsteinSpeech, speechLoop, maxRetries, h0, h1, h2]
        rw [ht]
        refine ⟨by simp, ?_, by simp [List.range_succ], fun _ => rfl⟩
        intro i hi
        simp at hi
        interval_cases i <;> simp [speechAttemptText]

/-- C6 witness: a backend that always throws yields three attempts, two
doubling delays, and an absent result. -/
theorem c6_speech_retry_policy_witness :
    (generateEinsteinSpeech (fun _ => TtsOutcome.err) "Hello").result = none ∧
    (generateEinsteinSpeech (fun _ => TtsOutcome.err) "Hello").attempts.length ≤ 3 :=
  ⟨(c6_speech_retry_policy (fun _ => TtsOutcome.err) "Hello").2.2.2 ⟨rfl, rfl, rfl⟩,
   (c6_speech_retry_policy (fun _ => TtsOutcome.err) "Hello").1⟩

/-! ## C1 — resolution priority and cache population -/

/-- C1 (amended): `generateEinsteinResponse` runs static lookup (for a
truthy chapter key), then cache lookup keyed by the fingerprint of
prompt + serialized history, then live generation, returning at the first
stage that succeeds without running later stages; a static or cached hit
leaves the store untouched, and a successful live generation hands its
(fallback-defaulted) result to the cache put, which persists it exactly
when it passes the 5-character minimum-length guard. -/
theorem c1_resolution_priority (prompt historyJson : String) (eraKey : Option String)
    (w : TextWorld) :
    (∀ s, truthyKey (activeEraKey prompt eraKey) = true →
      w.staticText ((activeEraKey prompt eraKey).getD "") = some s →
      (generateEinsteinResponse prompt historyJson eraKey w).result = Except.ok s ∧
      (generateEinsteinResponse prompt historyJson eraKey w).store = w.store ∧
      (generateEinsteinResponse prompt historyJson eraKey w).stages = [Stage.staticLookup]) ∧
    ((if truthyKey (activeEraKey prompt eraKey) then
        w.staticText ((activeEraKey prompt eraKey).getD "") else none) = none →
      ∀ c, getFromCache w.store "text" (generateCacheKey (prompt ++ historyJson)) = some c →
      (generateEinsteinResponse prompt historyJson eraKey w).result = Except.ok c ∧
      (generateEinsteinResponse prompt historyJson eraKey w).store = w.store ∧
      (generateEinsteinResponse prompt historyJson eraKey w).stages =
        (if truthyKey (activeEraKey prompt eraKey) then [Stage.staticLookup] else []) ++
          [Stage.cacheLookup]) ∧
    ((if truthyKey (activeEraKey prompt eraKey) then
        w.staticText ((activeEraKey prompt eraKey).getD "") else none) = none →
      getFromCache w.store "text" (generateCacheKey (prompt ++ historyJson)) = none →
      ∀ t, w.live = GenOutcome.ok t →
      (generateEinsteinResponse prompt historyJson eraKey w).result =
        Except.ok (if t = "" then FALLBACK_TEXT else t) ∧
      (generateEinsteinResponse prompt historyJson eraKey w).store =
        saveToCache w.store "text" (generateCacheKey (prompt ++ historyJson))
          (if t = "" then FALLBACK_TEXT else t) ∧
      (5 ≤ (if t = "" then FALLBACK_TEXT else t).length →
        getFromCache (generateEinsteinResponse prompt historyJson eraKey w).store "text"
            (generateCacheKey (prompt ++ historyJson)) =
          some (if t = "" then FALLBACK_TEXT else t)) ∧
      (generateEinsteinResponse prompt historyJson eraKey w).stages =
        (if truthyKey (activeEraKey prompt eraKey) then [Stage.staticLookup] else []) ++
          [Stage.cacheLookup, Stage.liveGen]) := by
  refine ⟨?_, ?_, ?_⟩
  · intro s ht hs
    simp [generateEinsteinResponse, ht, hs]
  · intro hnone c hc
    simp [generateEinsteinResponse, hnone, hc]
  · intro hnone hc t hlive
    have hmain :
        (generateEinsteinResponse prompt historyJson eraKey w).result =
          Except.ok (if t = "" then FALLBACK_TEXT else t) ∧
        (generateEinsteinResponse prompt historyJson eraKey w).store =
          saveToCache w.store "text" (generateCacheKey (prompt ++ historyJson))
            (if t = "" then FALLBACK_TEXT else t) ∧
        (generateEinsteinResponse prompt historyJson eraKey w).stages =
          (if truthyKey (activeEraKey prompt eraKey) then [Stage.staticLookup] else []) ++
            [Stage.cacheLookup, Stage.liveGen] := by
      simp [generateEinsteinResponse, hnone, hc, hlive]
    refine ⟨hmain.1, hmain.2.1, ?_, hmain.2.2⟩
    intro h5
    rw [hmain.2.1]
    exact saveToCache_readBack _ _ _ _ h5

/-- C1 witness: with the static archive and cache empty, a live result of
length ≥ 5 is returned and read back from the populated cache. -/
theorem c1_resolution_priority_witness :
    (generateEinsteinResponse "Q" "[]" (some "Foundations")
        ⟨fun _ => none, fun _ => none, GenOutcome.ok "Hello, my dear friend"⟩).result =
      Except.ok "Hello, my dear friend" ∧
    getFromCache (generateEinsteinResponse "Q" "[]" (some "Foundations")
        ⟨fun _ => none, fun _ => none, GenOutcome.ok "Hello, my dear friend"⟩).store
      "text" (generateCacheKey ("Q" ++ "[]")) = some "Hello, my dear friend" := by
  have h := (c1_resolution_priority "Q" "[]" (some "Foundations")
      ⟨fun _ => none, fun _ => none, GenOutcome.ok "Hello, my dear friend"⟩).2.2
      rfl rfl "Hello, my dear friend" rfl
  have hne : (if ("Hello, my dear friend" : String) = "" then FALLBACK_TEXT
      else "Hello, my dear friend") = "Hello, my dear friend" := by
    rw [if_neg (by decide)]
  constructor
  · rw [h.1, hne]
  · have := h.2.2.1 (by rw [hne]; decide)
    rw [hne] at this
    exact this

/-- C1 counterexample: the claim that a successful live generation always
writes its result into the cache fails — a live result shorter than the
5-character guard ("Ja.") is returned but never persisted: the key is still
absent from the store afterwards. -/
theorem c1_short_live_result_not_cached :
    (generateEinsteinResponse "Tell me" "[]" (some "Foundations")
        ⟨fun _ => none, fun _ => none, GenOutcome.ok "Ja."⟩).result = Except.ok "Ja." ∧
    (generateEinsteinResponse "Tell me" "[]" (some "Foundations")
        ⟨fun _ => none, fun _ => none, GenOutcome.ok "Ja."⟩).store
      (storageKey "text" (generateCacheKey ("Tell me" ++ "[]"))) = none := by
  constructor
  · rfl
  · rfl

/-! ## C5 — failure propagation of the text pipeline -/

/-- C5 (amended): when the static archive and cache miss, an empty live
result yields the clearly-marked fallback sentence without throwing, while
a thrown backend failure propagates to the caller whether or not the
request is a chapter start (the `src/services/geminiService.ts` variant
rethrows unconditionally; only the part_001 iteration returns a fallback
for thrown failures). -/
theorem c5_failure_propagation (prompt historyJson : String) (eraKey : Option String)
    (w : TextWorld)
    (hstatic : (if truthyKey (activeEraKey prompt eraKey) then
        w.staticText ((activeEraKey prompt eraKey).getD "") else none) = none)
    (hcache : getFromCache w.store "text" (generateCacheKey (prompt ++ historyJson)) = none) :
    (∀ m, w.live = GenOutcome.err m →
      (generateEinsteinResponse prompt historyJson eraKey w).result = Except.error m) ∧
    (w.live = GenOutcome.ok "" →
      (generateEinsteinResponse prompt historyJson eraKey w).result =
        Except.ok FALLBACK_TEXT) := by
  constructor
  · intro m hm
    simp [generateEinsteinResponse, hstatic, hcache, hm]
  · intro hm
    simp [generateEinsteinResponse, hstatic, hcache, hm]

/-- C5 counterexample: a follow-up request (no chapter identifier, prompt
matching no chapter prompt) whose live generation throws is not answered
with a fallback sentence — `generateEinsteinResponse` rethrows the error. -/
theorem c5_followup_failure_rethrown :
    (generateEinsteinResponse "What is time?" "[]" none
        ⟨fun _ => none, fun _ => none, GenOutcome.err "quota exceeded"⟩).result =
      Except.error "quota exceeded" := by
  rfl

/-- C5 witness: with static archive and cache empty, an empty live result
resolves to the marked fallback sentence without throwing. -/
theorem c5_failure_propagation_witness :
    (generateEinsteinResponse "What is time?" "[]" none
        ⟨fun _ => none, fun _ => none, GenOutcome.ok ""⟩).result =
      Except.ok FALLBACK_TEXT :=
  (c5_failure_propagation "What is time?" "[]" none
      ⟨fun _ => none, fun _ => none, GenOutcome.ok ""⟩ rfl rfl).2 rfl

/-! ## C4 — fingerprint determinism and shape -/

/-- Every big-endian byte of a hash word is below 256. -/
theorem wordBytes_lt (w : Nat) : ∀ b ∈ wordBytes w, b < 256 := by
  intro b hb
  simp [wordBytes] at hb
  rcases hb with h | h | h | h <;> subst h <;> exact Nat.mod_lt _ (by norm_num)

/-- Every digest byte is below 256. -/
theorem digestBytes_lt (st : Sha256State) : ∀ b ∈ digestBytes st, b < 256 := by
  intro b hb
  simp only [digestBytes, List.mem_append] at hb
  rcases hb with ((((((h | h) | h) | h) | h) | h) | h) | h <;> exact wordBytes_lt _ _ h

/-- The digest always has 32 bytes. -/
theorem digestBytes_length (st : Sha256State) : (digestBytes st).length = 32 := by
  simp [digestBytes, wordBytes]

/-- Folding string append from an accumulator concatenates the data lists. -/
theorem foldl_append_data (l : List String) (acc : String) :
    (l.foldl (· ++ ·) acc).data = acc.data ++ (l.map String.data).flatten := by
  induction l generalizing acc with
  | nil => simp
  | cons s l ih => simp [List.foldl_cons, ih, String.data_append]

/-- The flattened two-character hex chunks have twice as many characters as
there are bytes. -/
theorem flatten_hexPairs_length (bs : List Nat) :
    ((bs.map (fun b => [hexChar (b / 16), hexChar (b % 16)])).flatten).length = 2 * bs.length := by
  induction bs with
  | nil => simp
  | cons b bs ih => simp [ih]; omega

/-- The character data of a fingerprint. -/
theorem generateCacheKey_data (input : String) :
    (generateCacheKey input).data =
      (((sha256Bytes (utf8Bytes input)).map
          (fun b => [hexChar (b / 16), hexChar (b % 16)])).flatten).take 32 := by
  unfold generateCacheKey
  rw [String.data_take, foldl_append_data]
  simp [List.map_map]
  rfl

/-- A hex digit below 16 renders inside the lowercase hex alphabet. -/
theorem hexChar_mem (n : Nat) (h : n < 16) : hexChar n ∈ hexDigits := by
  interval_cases n <;> decide

/-- C4: `generateCacheKey` is deterministic (equal inputs give equal
fingerprints) and always returns exactly 32 lowercase hexadecimal
characters — the truncated prefix of the SHA-256 hex digest. -/
theorem c4_generateCacheKey_shape (x : String) :
    generateCacheKey x = generateCacheKey x ∧
    (generateCacheKey x).length = 32 ∧
    (generateCacheKey x).data.all (fun c => c ∈ hexDigits) = true := by
  have hlen : (sha256Bytes (utf8Bytes x)).length = 32 := digestBytes_length _
  have hlt : ∀ b ∈ sha256Bytes (utf8Bytes x), b < 256 := digestBytes_lt _
  have hl : ∀ s : String, s.length = s.data.length := fun _ => rfl
  refine ⟨rfl, ?_, ?_⟩
  · rw [hl, generateCacheKey_data, List.length_take, flatten_hexPairs_length, hlen]
    omega
  · rw [List.all_eq_true]
    intro c hc
    simp only [decide_eq_true_eq]
    rw [generateCacheKey_data] at hc
    have hc2 := List.take_subset _ _ hc
    rw [List.mem_flatten] at hc2
    obtain ⟨l, hl, hcl⟩ := hc2
    rw [List.mem_map] at hl
    obtain ⟨b, hb, rfl⟩ := hl
    have hblt : b < 256 := hlt b hb
    simp at hcl
    rcases hcl with rfl | rfl
    · exact hexChar_mem _ (by omega)
    · exact hexChar_mem _ (Nat.mod_lt _ (by norm_num))

/-! ## C10 — snapshot isolation of the log getter -/

/-- Reading just past the end of a heap extended by one array yields the
new array. -/
theorem readArr_append_self {α : Type} (h : List (List α)) (v : List α) :
    readArr (h ++ [v]) h.length = v := by
  simp [readArr, List.getD_eq_getElem?_getD, List.getElem?_append]

/-- Reading below the old length is unaffected by an append. -/
theorem readArr_append_lt {α : Type} (h : List (List α)) (v : List α) (a : Nat)
    (ha : a < h.length) : readArr (h ++ [v]) a = readArr h a := by
  simp [readArr, List.getD_eq_getElem?_getD, List.getElem?_append, ha]

/-- Overwriting one address leaves every other address unchanged. -/
theorem readArr_set_ne {α : Type} (h : List (List α)) (a b : Nat) (v : List α)
    (hne : a ≠ b) : readArr (h.set a v) b = readArr h b := by
  simp [readArr, List.getD_eq_getElem?_getD, List.getElem?_set_ne hne]

/-- A snapshot read: what `getPerformanceLogs` returns is what the internal
buffer held. -/
theorem getPerformanceLogs_read {α : Type} (u : LogHeap α) :
    readArr (getPerformanceLogs u).2.heap (getPerformanceLogs u).1 =
      readArr u.heap u.current :=
  readArr_append_self _ _

/-- After a clear, the internal buffer reads empty. -/
theorem clearPerformanceLogs_read {α : Type} (u : LogHeap α) :
    readArr (clearPerformanceLogs u).heap (clearPerformanceLogs u).current = [] :=
  readArr_append_self _ _

/-- C10: `getPerformanceLogs` hands out a fresh copy of the internal
buffer: the copy has the buffer's contents but lives at a different address
than the one the module variable holds, mutating the copy in place changes
neither the internal buffer nor what a later `getPerformanceLogs` returns,
and `clearPerformanceLogs` leaves every previously allocated array (hence
every previously returned snapshot) unchanged while making subsequent
snapshots empty. -/
theorem c10_snapshot_isolation {α : Type} (s : LogHeap α) (v : List α)
    (hwf : s.current < s.heap.length) :
    readArr (getPerformanceLogs s).2.heap (getPerformanceLogs s).1 =
      readArr s.heap s.current ∧
    (getPerformanceLogs s).2.current = s.current ∧
    (getPerformanceLogs s).1 ≠ (getPerformanceLogs s).2.current ∧
    readArr (mutateArr (getPerformanceLogs s).2 (getPerformanceLogs s).1 v).heap
        (mutateArr (getPerformanceLogs s).2 (getPerformanceLogs s).1 v).current =
      readArr s.heap s.current ∧
    readArr
        (getPerformanceLogs
          (mutateArr (getPerformanceLogs s).2 (getPerformanceLogs s).1 v)).2.heap
        (getPerformanceLogs
          (mutateArr (getPerformanceLogs s).2 (getPerformanceLogs s).1 v)).1 =
      readArr s.heap s.current ∧
    (∀ a, a < (getPerformanceLogs s).2.heap.length →
      readArr (clearPerformanceLogs (getPerformanceLogs s).2).heap a =
        readArr (getPerformanceLogs s).2.heap a) ∧
    readArr (getPerformanceLogs (clearPerformanceLogs (getPerformanceLogs s).2)).2.heap
        (getPerformanceLogs (clearPerformanceLogs (getPerformanceLogs s).2)).1 = [] := by
  have hcur : s.current ≠ s.heap.length := by omega
  have hmut : readArr
      (mutateArr (getPerformanceLogs s).2 (getPerformanceLogs s).1 v).heap
      (mutateArr (getPerformanceLogs s).2 (getPerformanceLogs s).1 v).current =
      readArr s.heap s.current := by
    show readArr ((s.heap ++ [readArr s.heap s.current]).set s.heap.length v) s.current =
      readArr s.heap s.current
    rw [readArr_set_ne _ _ _ _ (by omega), readArr_append_lt _ _ _ hwf]
  refine ⟨getPerformanceLogs_read s, rfl, hcur.symm, hmut, ?_, ?_, ?_⟩
  · rw [getPerformanceLogs_read]
    exact hmut
  · intro a ha
    exact readArr_append_lt _ _ _ ha
  · rw [getPerformanceLogs_read]
    exact clearPerformanceLogs_read _

/-- C10 witness: a one-array heap. -/
theorem c10_snapshot_isolation_witness :
    readArr (getPerformanceLogs (⟨[[1, 2]], 0⟩ : LogHeap Nat)).2.heap
        (getPerformanceLogs (⟨[[1, 2]], 0⟩ : LogHeap Nat)).1 = readArr [[1, 2]] 0 ∧
    readArr
        (getPerformanceLogs
          (clearPerformanceLogs (getPerformanceLogs (⟨[[1, 2]], 0⟩ : LogHeap Nat)).2)).2.heap
        (getPerformanceLogs
          (clearPerformanceLogs (getPerformanceLogs (⟨[[1, 2]], 0⟩ : LogHeap Nat)).2)).1 =
      [] :=
  ⟨(c10_snapshot_isolation (⟨[[1, 2]], 0⟩ : LogHeap Nat) [9] (by decide)).1,
   (c10_snapshot_isolation (⟨[[1, 2]], 0⟩ : LogHeap Nat) [9] (by decide)).2.2.2.2.2.2⟩

/-! ## C9 — narration session cancellation -/

/-- A resumption whose captured session is no longer current performs no
side effect at all: the global state is returned untouched and the task
abandons itself. -/
theorem resumeStep_stale (σ : NarrState) (t : SpeechTask) (ttsOk : Bool)
    (h : t.captured ≠ σ.counter) : resumeStep σ t ttsOk = (σ, none) := by
  unfold resumeStep
  cases t.pc with
  | loopHead =>
    cases t.paras with
    | nil => simp [h]
    | cons p ps => simp [h]
  | afterTts => simp [h]
  | afterDecode => simp [h]

/-- Case analysis of a resumption's effect on the global state. -/
theorem resumeStep_cases (σ : NarrState) (t : SpeechTask) (ttsOk : Bool) :
    (resumeStep σ t ttsOk).1 = σ ∨
    (resumeStep σ t ttsOk).1 = stopAudio σ ∨
    ((resumeStep σ t ttsOk).1.counter = σ.counter ∧
     (resumeStep σ t ttsOk).1.audioOwner = σ.audioOwner ∧ t.captured = σ.counter) ∨
    ((resumeStep σ t ttsOk).1.counter = σ.counter ∧
     (resumeStep σ t ttsOk).1.audioOwner = some t.captured ∧ t.captured = σ.counter) := by
  by_cases h : t.captured = σ.counter
  · unfold resumeStep
    cases t.pc with
    | loopHead =>
      cases t.paras with
      | nil => simp [h]
      | cons p ps =>
        right; right; left
        simp [h]
    | afterTts =>
      cases ttsOk with
      | false => simp [h]
      | true => simp [h]
    | afterDecode =>
      right; right; right
      simp [h]
  · rw [resumeStep_stale σ t ttsOk h]
    left
    rfl

/-- The session counter never decreases across a narration transition. -/
theorem narrStep_counter_mono {σ σ' : NarrState} (h : NarrStep σ σ') :
    σ.counter ≤ σ'.counter := by
  cases h with
  | stop => exact Nat.le_succ _
  | start => exact Nat.le_succ _
  | resume t ttsOk =>
    rcases resumeStep_cases σ t ttsOk with h | h | h | h
    · rw [h]
    · rw [h]; simp [stopAudio]
    · rw [h.1]
    · rw [h.1]

/-- One narration transition preserves the audio-ownership invariant. -/
theorem narrStep_owner_inv {σ σ' : NarrState} (h : NarrStep σ σ')
    (hinv : ∀ s, σ.audioOwner = some s → s = σ.counter) :
    ∀ s, σ'.audioOwner = some s → s = σ'.counter := by
  cases h with
  | stop => intro s hs; simp [stopAudio] at hs
  | start => intro s hs; simp [stopAudio] at hs
  | resume t ttsOk =>
    rcases resumeStep_cases σ t ttsOk with h | h | h | h
    · rw [h]; exact hinv
    · rw [h]; intro s hs; simp [stopAudio] at hs
    · intro s hs
      rw [h.2.1] at hs
      rw [h.1]
      exact hinv s hs
    · intro s hs
      rw [h.2.1] at hs
      rw [h.1, ← h.2.2]
      exact (Option.some.injEq _ _ ▸ hs).symm

/-- The audio-ownership invariant holds in every reachable narration state. -/
theorem narrReach_owner {σ : NarrState} (h : NarrReach σ) :
    ∀ s, σ.audioOwner = some s → s = σ.counter := by
  induction h with
  | init => intro s hs; simp [narrInit] at hs
  | step _ hstep ih => exact narrStep_owner_inv hstep ih

/-- C9: a narration task whose captured session counter is stale performs
no further side effect on resumption (no backend speech call, no audio
segment, no state change at all); the session counter is monotone, so once
session N+1 has started every resumption of session N is permanently
stale; and in every reachable state `isAudioPlaying` is owned, if at all,
by the single current session. -/
theorem c9_narration_cancellation :
    (∀ (σ : NarrState) (t : SpeechTask) (ttsOk : Bool),
      t.captured ≠ σ.counter → resumeStep σ t ttsOk = (σ, none)) ∧
    (∀ σ σ' : NarrState, NarrStep σ σ' → σ.counter ≤ σ'.counter) ∧
    (∀ σ : NarrState, NarrReach σ → ∀ s, σ.audioOwner = some s → s = σ.counter) :=
  ⟨resumeStep_stale, fun _ _ h => narrStep_counter_mono h, fun _ h => narrReach_owner h⟩

/-- C9 witness: a concrete stale resumption is a no-op, and an explicit
stop only increases the counter. -/
theorem c9_narration_cancellation_witness :
    resumeStep ⟨1, none, [], []⟩ ⟨0, SpeechPC.loopHead, ["p"]⟩ true =
      (⟨1, none, [], []⟩, none) ∧
    narrInit.counter ≤ (stopAudio narrInit).counter :=
  ⟨c9_narration_cancellation.1 ⟨1, none, [], []⟩ ⟨0, SpeechPC.loopHead, ["p"]⟩ true
      (by decide),
   c9_narration_cancellation.2.1 narrInit (stopAudio narrInit) (NarrStep.stop narrInit)⟩

